import Mathlib

/-!
Shallow embedding of the lag-feature forecasting pipeline of
`src/main.py` (energy-consumption dashboard).  Numeric values are
modelled as exact rationals; the only real-valued quantity is the RMSE,
which applies a square root.  Pandas tables are modelled as lists of
rows; a missing value produced by `shift` is an `Option` that is `none`.
External library calls (the SARIMA fit, the XGBoost and Gradient
Boosting regressors) are abstracted as function parameters, since the
repository treats them as external collaborators.
-/

namespace ElectricityConsumption

/-! ## Metric Calculator (src/main.py lines 12-18) -/

/-- Mean of a list of rationals; division by the length as in pandas
`.mean()` (an empty list yields 0, as rational division by zero is 0). -/
def listMean (l : List ℚ) : ℚ := l.sum / l.length

/-- Sum of squared residuals over paired truth and prediction values. -/
def ss_res (test_data predictions : List ℚ) : ℚ :=
  ((test_data.zip predictions).map (fun a => (a.1 - a.2) ^ 2)).sum

/-- Total sum of squares of the truth values about their mean. -/
def ss_tot (test_data : List ℚ) : ℚ :=
  (test_data.map (fun x => (x - listMean test_data) ^ 2)).sum

/-- Population variance, used by the explained-variance metric. -/
def listVar (l : List ℚ) : ℚ := (l.map (fun x => (x - listMean l) ^ 2)).sum / l.length

/-- Models `sklearn.metrics.mean_squared_error`: mean of squared residuals. -/
def mean_squared_error (test_data predictions : List ℚ) : ℚ :=
  ss_res test_data predictions / test_data.length

/-- Models `sklearn.metrics.mean_absolute_error`: mean of absolute residuals. -/
def mean_absolute_error (test_data predictions : List ℚ) : ℚ :=
  ((test_data.zip predictions).map (fun a => |a.1 - a.2|)).sum / test_data.length

/-- Models `sklearn.metrics.r2_score` by its documented formula:
`1 - ss_res / ss_tot`, with the documented degenerate convention when the
truth is constant (`ss_tot = 0`): 1 for a perfect prediction, 0 otherwise. -/
def r2_score (test_data predictions : List ℚ) : ℚ :=
  if ss_tot test_data = 0 then
    (if ss_res test_data predictions = 0 then 1 else 0)
  else 1 - ss_res test_data predictions / ss_tot test_data

/-- Models `sklearn.metrics.explained_variance_score` by its documented
formula `1 - Var(truth - predicted) / Var(truth)`, with the same
degenerate convention as `r2_score` when the truth variance is zero. -/
def explained_variance_score (test_data predictions : List ℚ) : ℚ :=
  let residuals := (test_data.zip predictions).map (fun a => a.1 - a.2)
  if listVar test_data = 0 then
    (if listVar residuals = 0 then 1 else 0)
  else 1 - listVar residuals / listVar test_data

/-- The MAPE expression of line 15:
`(abs((test_data - predictions) / test_data).mean()) * 100`. -/
def mape (test_data predictions : List ℚ) : ℚ :=
  (((test_data.zip predictions).map (fun a => |(a.1 - a.2) / a.1|)).sum
    / test_data.length) * 100

/-- The fixed metric schema returned by `calculate_metrics`. -/
structure MetricsRecord where
  RMSE : ℝ
  MAE : ℚ
  MAPE : ℚ
  R2 : ℚ
  ExplainedVariance : ℚ

/-- Translation of `calculate_metrics` (lines 12-18).  RMSE is
`sqrt(mean_squared_error(...))` and is the one real-valued field. -/
noncomputable def calculate_metrics (test_data predictions : List ℚ) : MetricsRecord where
  RMSE := Real.sqrt ((mean_squared_error test_data predictions : ℚ) : ℝ)
  MAE := mean_absolute_error test_data predictions
  MAPE := mape test_data predictions
  R2 := r2_score test_data predictions
  ExplainedVariance := explained_variance_score test_data predictions

/-- Guarded variant of the MAPE summand list: returns `none` as soon as a
division by a zero truth value would occur, `some` of the absolute
percentage errors otherwise.  Modelled from the spec sentence flagging
the division-by-zero hazard of the MAPE formula; it instruments the very
computation of line 15 with an explicit zero-denominator check. -/
def absPctErrors : List (ℚ × ℚ) → Option (List ℚ)
  | [] => some []
  | a :: rest =>
      if a.1 = 0 then none
      else (absPctErrors rest).map (fun l => |(a.1 - a.2) / a.1| :: l)

/-- Guarded MAPE: `none` exactly when the computation of line 15 would
divide by a zero truth value. -/
def mape_guard (test_data predictions : List ℚ) : Option ℚ :=
  (absPctErrors (test_data.zip predictions)).map
    (fun l => (l.sum / test_data.length) * 100)

/-! ## Lag-Feature Builder (src/main.py lines 40-47, likewise 66-73) -/

/-- Translation of the inner `get_lag` helper (lines 40-43, duplicated at
lines 66-69) together with the pandas frame it acts on: row `r` of the
result carries the target value `s[r]` and, for each lag offset
`j + 1 ≤ lagtime`, the shifted value `s[r - (j+1)]`, which is missing
(`none`) for rows with `r < j + 1`, exactly as `Series.shift` produces
leading NaN rows. -/
def get_lag (s : List ℚ) (lagtime : Nat) : List (ℚ × List (Option ℚ)) :=
  (List.range s.length).map (fun r =>
    (s.getD r 0,
     (List.range lagtime).map (fun j =>
       if j + 1 ≤ r then some (s.getD (r - (j + 1)) 0) else none)))

/-- Collapses a row of optional lag values: `some` of all values when none
is missing, `none` otherwise. -/
def allSome : List (Option ℚ) → Option (List ℚ)
  | [] => some []
  | none :: _ => none
  | some x :: rest => (allSome rest).map (fun l => x :: l)

/-- Translation of `DataFrame.dropna` on the lag frame (line 47, likewise
line 73, and line 194): keep exactly the rows in which every lag value is
present. -/
def dropna (t : List (ℚ × List (Option ℚ))) : List (ℚ × List ℚ) :=
  t.filterMap (fun row => (allSome row.2).map (fun lags => (row.1, lags)))

/-- The composite lag-table builder used by every tabular code path:
`get_lag` followed by `dropna` (lines 45-47, 71-73, and inlined again at
lines 191-194 of `forecast_future`). -/
def build_lag_table (s : List ℚ) (lagtime : Nat) : List (ℚ × List ℚ) :=
  dropna (get_lag s lagtime)

/-! ## Train/Test Splitter (src/main.py lines 22-24 and 49-51, 75-77) -/

/-- Python `int(...)` on a (here exact) numeric value: truncation toward
zero. -/
def py_int (q : ℚ) : ℤ := if q < 0 then ⌈q⌉ else ⌊q⌋

/-- Translation of the chronological split
`train_size = int(len(data) * (1 - test_size)); data[:train_size],
data[train_size:]` that appears verbatim in `sarima_forecast`
(lines 22-24) and on the lag table in both tabular pipelines
(lines 49-51 and 75-77). -/
def train_test_split {α : Type} (data : List α) (test_size : ℚ) : List α × List α :=
  let train_size := (py_int ((data.length : ℚ) * (1 - test_size))).toNat
  (data.take train_size, data.drop train_size)

/-! ## Tabular forecast pipelines (src/main.py lines 39-62 and 65-88) -/

/-- The design matrices of `xgboost_forecast` (lines 45-54): lag table,
chronological split of its rows, then
`((X_train, y_train), (X_test, y_test))` where the feature columns are
the lag values and the target column is the series value. -/
def xgboost_design (data : List ℚ) (lag_features : Nat) (test_size : ℚ) :
    (List (List ℚ) × List ℚ) × (List (List ℚ) × List ℚ) :=
  let tbl := build_lag_table data lag_features
  let split_date := (py_int ((tbl.length : ℚ) * (1 - test_size))).toNat
  let train_data := tbl.take split_date
  let test_data := tbl.drop split_date
  ((train_data.map Prod.snd, train_data.map Prod.fst),
   (test_data.map Prod.snd, test_data.map Prod.fst))

/-- The design matrices of `gradient_boosting_forecast` (lines 71-80),
line for line the same construction as in `xgboost_forecast`. -/
def gradient_boosting_design (data : List ℚ) (lag_features : Nat) (test_size : ℚ) :
    (List (List ℚ) × List ℚ) × (List (List ℚ) × List ℚ) :=
  let tbl := build_lag_table data lag_features
  let split_date := (py_int ((tbl.length : ℚ) * (1 - test_size))).toNat
  let train_data := tbl.take split_date
  let test_data := tbl.drop split_date
  ((train_data.map Prod.snd, train_data.map Prod.fst),
   (test_data.map Prod.snd, test_data.map Prod.fst))

/-- Translation of `xgboost_forecast` (lines 39-62), parameterized by the
external regressor: `reg X_train y_train X_test` stands for
`reg.fit(X_train, y_train, ...); reg.predict(X_test)`.  Returns
`(metrics, predictions, y_test)` as the source does. -/
noncomputable def xgboost_forecast
    (reg : List (List ℚ) → List ℚ → List (List ℚ) → List ℚ)
    (data : List ℚ) (lag_features : Nat) (test_size : ℚ) :
    MetricsRecord × List ℚ × List ℚ :=
  let d := xgboost_design data lag_features test_size
  let predictions := reg d.1.1 d.1.2 d.2.1
  (calculate_metrics d.2.2 predictions, predictions, d.2.2)

/-- Translation of `gradient_boosting_forecast` (lines 65-88),
parameterized by the external regressor exactly as `xgboost_forecast`. -/
noncomputable def gradient_boosting_forecast
    (reg : List (List ℚ) → List ℚ → List (List ℚ) → List ℚ)
    (data : List ℚ) (lag_features : Nat) (test_size : ℚ) :
    MetricsRecord × List ℚ × List ℚ :=
  let d := gradient_boosting_design data lag_features test_size
  let predictions := reg d.1.1 d.1.2 d.2.1
  (calculate_metrics d.2.2 predictions, predictions, d.2.2)

/-! ## Future Extrapolator (src/main.py lines 177-215) -/

/-- Failure modes relevant to `forecast_future`: the Python `IndexError`
raised by `X_train.iloc[-1]` on an empty frame, and the typed
`UnknownStrategy` failure the spec prescribes for a bad dispatch key. -/
inductive PyError where
  | IndexError : PyError
  | UnknownStrategy : PyError
deriving DecidableEq, Repr

/-- The rollout loop of lines 207-212: `horizon` iterations of
`next_pred = model.predict([input_data])[0]; predictions.append(next_pred);
input_data = list(input_data[1:]) + [next_pred]`. -/
def rollout (model : List ℚ → ℚ) : Nat → List ℚ → List ℚ
  | 0, _ => []
  | h + 1, w =>
      let next_pred := model w
      next_pred :: rollout model h (w.drop 1 ++ [next_pred])

/-- Translation of `forecast_future` (lines 177-215).  The external model
fits are abstracted: `sarima_model data steps` stands for the whole
auto-ARIMA fit and `get_forecast(steps)` call of the SARIMA branch, and
`xgb_fit`/`gb_fit` turn the design matrices into the fitted single-step
predictor used inside the rollout loop.  The result is `Except` over the
in-repository failure modes; the value `none` models the implicit Python
`None` returned when no branch matches `model_choice`. -/
def forecast_future
    (sarima_model : List ℚ → Nat → List ℚ)
    (xgb_fit gb_fit : List (List ℚ) → List ℚ → List ℚ → ℚ)
    (data : List ℚ) (model_choice : String) (future_steps : Nat) :
    Except PyError (Option (List ℚ)) :=
  if model_choice = "SARIMA" then
    Except.ok (some (sarima_model data future_steps))
  else if model_choice = "XGBoost" ∨ model_choice = "Gradient Boosting" then
    let lag_features : Nat := 8
    let future_data := build_lag_table data lag_features
    let X_train := future_data.map Prod.snd
    let y_train := future_data.map Prod.fst
    let model : List ℚ → ℚ :=
      if model_choice = "XGBoost" then xgb_fit X_train y_train
      else gb_fit X_train y_train
    match X_train.getLast? with
    | none => Except.error PyError.IndexError
    | some input_data => Except.ok (some (rollout model future_steps input_data))
  else
    Except.ok none

/-- Modelled from the spec: the reference rollout recursion of section
4.5.  The window lists the lags newest first (`[lag 1, ..., lag k]`);
each step the prediction enters at the lag-1 position and the oldest lag
is discarded. -/
def rollout_ref (model : List ℚ → ℚ) : Nat → List ℚ → List ℚ
  | 0, _ => []
  | h + 1, w =>
      let next_pred := model w
      next_pred :: rollout_ref model h (next_pred :: w.dropLast)

/-- Modelled from the spec: the reference seed window of section 4.5, the
last `k` known values of the series, newest first, so that lag `j` holds
`s[n - j]`. -/
def seed_ref (s : List ℚ) (k : Nat) : List ℚ :=
  (s.drop (s.length - k)).reverse

/-! ## Helper lemmas -/

theorem allSome_map_some (l : List ℚ) : allSome (l.map some) = some l := by
  induction l with
  | nil => rfl
  | cons a t ih => simp [allSome, ih]

theorem allSome_eq_none_of_mem (l : List (Option ℚ)) (h : none ∈ l) :
    allSome l = none := by
  induction l with
  | nil => cases h
  | cons a t ih =>
      cases a with
      | none => rfl
      | some x =>
          have ht : none ∈ t := by
            rcases List.mem_cons.1 h with h1 | h1
            · cases h1
            · exact h1
          simp [allSome, ih ht]

theorem filterMap_eq_nil_of_forall_none {α β : Type} (g : α → Option β) (l : List α)
    (h : ∀ x ∈ l, g x = none) : l.filterMap g = [] := by
  induction l with
  | nil => rfl
  | cons a t ih =>
      rw [List.filterMap_cons, h a (List.mem_cons_self a t),
        ih fun x hx => h x (List.mem_cons_of_mem _ hx)]

theorem filterMap_eq_map_of_forall_some {α β : Type} (g : α → Option β) (f : α → β)
    (l : List α) (h : ∀ x ∈ l, g x = some (f x)) : l.filterMap g = l.map f := by
  induction l with
  | nil => rfl
  | cons a t ih =>
      rw [List.filterMap_cons, h a (List.mem_cons_self a t), List.map_cons,
        ih fun x hx => h x (List.mem_cons_of_mem _ hx)]

/-- Closed form of the lag-table builder: one row for each series position
`k + r` with `r < n - k`, holding the target `s[k + r]` and the lag values
`s[k + r - (j + 1)]` for `j + 1 ≤ k`.  Holds for every `k`, with the
empty table when `k ≥ n`. -/
theorem build_lag_table_eq (s : List ℚ) (k : Nat) :
    build_lag_table s k = (List.range (s.length - k)).map
      (fun r => (s.getD (k + r) 0,
        (List.range k).map (fun j => s.getD (k + r - (j + 1)) 0))) := by
  unfold build_lag_table dropna get_lag
  rw [List.filterMap_map]
  rcases Nat.le_total k s.length with hk | hk
  · obtain ⟨m, hm⟩ : ∃ m, s.length = k + m := ⟨s.length - k, (Nat.add_sub_cancel' hk).symm⟩
    rw [hm, Nat.add_sub_cancel_left, List.range_add, List.filterMap_append,
      List.filterMap_map]
    have h1 : List.filterMap
        ((fun row => (allSome row.2).map (fun lags => (row.1, lags))) ∘ fun r =>
          (s.getD r 0, (List.range k).map fun j =>
            if j + 1 ≤ r then some (s.getD (r - (j + 1)) 0) else none))
        (List.range k) = [] := by
      apply filterMap_eq_nil_of_forall_none
      intro r hr
      have hrk : r < k := List.mem_range.1 hr
      have hmem : none ∈ (List.range k).map fun j =>
          if j + 1 ≤ r then some (s.getD (r - (j + 1)) 0) else none := by
        refine List.mem_map.2 ⟨r, List.mem_range.2 hrk, ?_⟩
        rw [if_neg (by omega)]
      simp only [Function.comp_apply, allSome_eq_none_of_mem _ hmem, Option.map_none']
    rw [h1, List.nil_append]
    apply filterMap_eq_map_of_forall_some
    intro r hr
    have hall : ((List.range k).map fun j =>
        if j + 1 ≤ k + r then some (s.getD (k + r - (j + 1)) 0) else none) =
        (List.range k).map (some ∘ fun j => s.getD (k + r - (j + 1)) 0) := by
      apply List.map_congr_left
      intro j hj
      have hjk : j < k := List.mem_range.1 hj
      rw [if_pos (by omega)]
      rfl
    simp only [Function.comp_apply, hall, ← List.map_map, allSome_map_some,
      Option.map_some']
  · have h0 : s.length - k = 0 := Nat.sub_eq_zero_of_le hk
    rw [h0, List.range_zero, List.map_nil]
    apply filterMap_eq_nil_of_forall_none
    intro r hr
    have hrk : r < k := lt_of_lt_of_le (List.mem_range.1 hr) hk
    have hmem : none ∈ (List.range k).map fun j =>
        if j + 1 ≤ r then some (s.getD (r - (j + 1)) 0) else none := by
      refine List.mem_map.2 ⟨r, List.mem_range.2 hrk, ?_⟩
      rw [if_neg (by omega)]
    simp only [Function.comp_apply, allSome_eq_none_of_mem _ hmem, Option.map_none']

/-- Row count of the lag table: always the truncated difference
`n - k`. -/
theorem build_lag_table_length (s : List ℚ) (k : Nat) :
    (build_lag_table s k).length = s.length - k := by
  rw [build_lag_table_eq, List.length_map, List.length_range]

/-! ## Claim C2 -/

/-- Claim C2 (confirmed): for every series of length `n` and every lag
count `k` with `1 ≤ k < n`, the lag-table builder produces exactly
`n - k` rows, and the row aligned to series position `i = k + r` has
target `s[i]` and lag `j + 1` equal to `s[i - (j + 1)]`. -/
theorem build_lag_table_rows (s : List ℚ) (k : Nat) (hk : 1 ≤ k) (hkn : k < s.length) :
    (build_lag_table s k).length = s.length - k ∧
    ∀ r (hr : r < (build_lag_table s k).length),
      (build_lag_table s k).get ⟨r, hr⟩ =
        (s.getD (k + r) 0,
         (List.range k).map (fun j => s.getD (k + r - (j + 1)) 0)) := by
  refine ⟨build_lag_table_length s k, ?_⟩
  intro r hr
  have hr2 : r < s.length - k := by
    rw [build_lag_table_length] at hr
    exact hr
  simp only [List.get_eq_getElem, build_lag_table_eq, List.getElem_map,
    List.getElem_range]

/-- Witness for C2 on the spec scenario: the series `[1, ..., 10]` with
`k = 2` yields 8 rows whose first row is `(target = 3, lag1 = 2,
lag2 = 1)`. -/
theorem build_lag_table_rows_witness :
    (build_lag_table [1, 2, 3, 4, 5, 6, 7, 8, 9, 10] 2).length = 8 ∧
    (build_lag_table [1, 2, 3, 4, 5, 6, 7, 8, 9, 10] 2).headD (0, []) = (3, [2, 1]) := by
  have h := build_lag_table_rows [1, 2, 3, 4, 5, 6, 7, 8, 9, 10] 2
    (by decide) (by decide)
  exact ⟨by simpa using h.1, by decide⟩

/-! ## Claim C6 -/

/-- Claim C6 (refuted as stated): the lag builder is supposed to fail
with `InsufficientHistory` whenever `k` is outside `1 ≤ k < n`, but at
`k = 5` on the two-element series `[1, 2]` (so `k` outside the valid
range) the code raises nothing: `dropna` simply drops every row and the
builder returns the empty table, a normal value. -/
theorem build_lag_table_no_failure_cex :
    build_lag_table [(1 : ℚ), 2] 5 = [] ∧
    ¬(1 ≤ 5 ∧ 5 < [(1 : ℚ), 2].length) := by
  exact ⟨rfl, by decide⟩

/-- Claim C6 (amended): the lag builder never fails: for every series
and every lag count it returns a table (of `n - k` rows, truncated at
zero), and whenever `1 ≤ k < n` that table is nonempty with exactly
`n - k` rows; no `InsufficientHistory` failure exists in the code. -/
theorem build_lag_table_total (s : List ℚ) (k : Nat) :
    (build_lag_table s k).length = s.length - k ∧
    (k < s.length → build_lag_table s k ≠ []) := by
  refine ⟨build_lag_table_length s k, fun hkn => ?_⟩
  rw [← List.length_pos, build_lag_table_length]
  omega

/-- Witness for C6: on the three-element series with `k = 1` the builder
returns a nonempty table of 2 rows. -/
theorem build_lag_table_total_witness :
    (build_lag_table [1, 2, 3] 1).length = 2 ∧ build_lag_table [1, 2, 3] 1 ≠ [] := by
  have h := build_lag_table_total [1, 2, 3] 1
  exact ⟨by simpa using h.1, h.2 (by decide)⟩

/-! ## Claim C3 -/

/-- Claim C3 (confirmed): for every nonempty series and test fraction in
`(0, 1)`, the chronological split takes the first
`floor(n * (1 - test_fraction))` elements as the training segment and
the rest as the test segment: the training length is exactly that floor,
the two lengths sum to `n`, and concatenating the two segments gives
back the series unchanged (no reordering, training entirely before
test). -/
theorem train_test_split_chronological {α : Type} (data : List α) (f : ℚ)
    (h0 : 0 < f) (h1 : f < 1) (hn : 1 ≤ data.length) :
    (train_test_split data f).1 =
      data.take (⌊(data.length : ℚ) * (1 - f)⌋).toNat ∧
    (train_test_split data f).2 =
      data.drop (⌊(data.length : ℚ) * (1 - f)⌋).toNat ∧
    (train_test_split data f).1.length = (⌊(data.length : ℚ) * (1 - f)⌋).toNat ∧
    (train_test_split data f).1.length + (train_test_split data f).2.length
      = data.length ∧
    (train_test_split data f).1 ++ (train_test_split data f).2 = data := by
  have hq0 : (0 : ℚ) ≤ (data.length : ℚ) * (1 - f) :=
    mul_nonneg (Nat.cast_nonneg _) (by linarith)
  have hpy : py_int ((data.length : ℚ) * (1 - f)) = ⌊(data.length : ℚ) * (1 - f)⌋ := by
    rw [py_int, if_neg (not_lt.2 hq0)]
  have hlt : (data.length : ℚ) * (1 - f) < (data.length : ℚ) := by
    have hl0 : (0 : ℚ) < (data.length : ℚ) := by
      exact_mod_cast Nat.lt_of_lt_of_le Nat.zero_lt_one hn
    nlinarith
  have hfloor : ⌊(data.length : ℚ) * (1 - f)⌋ < (data.length : ℤ) :=
    Int.floor_lt.2 (by exact_mod_cast hlt)
  have hts : (⌊(data.length : ℚ) * (1 - f)⌋).toNat ≤ data.length :=
    Int.toNat_le.2 (le_of_lt hfloor)
  unfold train_test_split
  rw [hpy]
  refine ⟨rfl, rfl, ?_, ?_, List.take_append_drop _ _⟩
  · rw [List.length_take]
    omega
  · rw [List.length_take, List.length_drop]
    omega

/-- Witness for C3 on the spec scenario: a ten-element series with test
fraction `0.2` splits into a training segment of length 8 and a test
segment of length 2, concatenating back to the original. -/
theorem train_test_split_chronological_witness :
    (train_test_split [(0 : ℚ), 1, 2, 3, 4, 5, 6, 7, 8, 9] (1/5)).1.length = 8 ∧
    (train_test_split [(0 : ℚ), 1, 2, 3, 4, 5, 6, 7, 8, 9] (1/5)).2.length = 2 ∧
    (train_test_split [(0 : ℚ), 1, 2, 3, 4, 5, 6, 7, 8, 9] (1/5)).1 ++
      (train_test_split [(0 : ℚ), 1, 2, 3, 4, 5, 6, 7, 8, 9] (1/5)).2 =
      [(0 : ℚ), 1, 2, 3, 4, 5, 6, 7, 8, 9] := by
  have h := train_test_split_chronological [(0 : ℚ), 1, 2, 3, 4, 5, 6, 7, 8, 9] (1/5)
    (by norm_num) (by norm_num) (by decide)
  have h8 : (⌊(([(0 : ℚ), 1, 2, 3, 4, 5, 6, 7, 8, 9].length : ℚ)) * (1 - 1/5)⌋).toNat = 8 := by
    norm_num
    decide
  refine ⟨?_, ?_, h.2.2.2.2⟩
  · rw [h.2.2.1, h8]
  · have hsum := h.2.2.2.1
    rw [h.2.2.1, h8] at hsum
    simp only [List.length_cons, List.length_nil] at hsum
    omega

/-! ## Future Extrapolator claims -/

/-- Reduction of the tabular branch of `forecast_future`: for the two
tree strategies the function builds the lag table, reads the lag row of
its last table row, and on success runs the rollout loop from it. -/
theorem forecast_future_tabular (sar : List ℚ → Nat → List ℚ)
    (xf gf : List (List ℚ) → List ℚ → List ℚ → ℚ) (data : List ℚ) (mc : String)
    (h : Nat) (hmc : mc = "XGBoost" ∨ mc = "Gradient Boosting") :
    forecast_future sar xf gf data mc h =
      match ((build_lag_table data 8).map Prod.snd).getLast? with
      | none => Except.error PyError.IndexError
      | some w =>
          Except.ok (some (rollout
            (if mc = "XGBoost" then
              xf ((build_lag_table data 8).map Prod.snd)
                ((build_lag_table data 8).map Prod.fst)
             else
              gf ((build_lag_table data 8).map Prod.snd)
                ((build_lag_table data 8).map Prod.fst))
            h w)) := by
  have hs : mc ≠ "SARIMA" := by rcases hmc with rfl | rfl <;> decide
  unfold forecast_future
  rw [if_neg hs, if_pos hmc]

/-- Claim C1 (code bug): the code rollout and the reference recursion of
the spec disagree.  On the series `[1, ..., 10]` with the fixed `k = 8`
lags, horizon 1 and the deterministic single-step model returning the
lag-1 (first) window component, the code seeds the window with the lag
features of the last lag-table row, `[9, 8, ..., 2]`, and predicts 9,
while the reference recursion seeds the window with the last 8 known
values, `[10, 9, ..., 3]`, and predicts 10. -/
theorem rollout_diverges_from_reference :
    forecast_future (fun _ _ => []) (fun _ _ => fun w => w.headD 0)
        (fun _ _ => fun _ => 0) [1, 2, 3, 4, 5, 6, 7, 8, 9, 10] "XGBoost" 1
      = Except.ok (some [9]) ∧
    rollout_ref (fun w => w.headD 0) 1
        (seed_ref [1, 2, 3, 4, 5, 6, 7, 8, 9, 10] 8) = [10] ∧
    (9 : ℚ) ≠ 10 := by
  exact ⟨rfl, rfl, by decide⟩

/-- Constant-window invariant of the rollout loop: a model that maps
every all-`c` window to `c` keeps the window all-`c`, so the loop emits
`horizon` copies of `c`. -/
theorem rollout_const (model : List ℚ → ℚ) (c : ℚ)
    (hm : ∀ w, (∀ x ∈ w, x = c) → model w = c) :
    ∀ (h : Nat) (w : List ℚ), (∀ x ∈ w, x = c) →
      rollout model h w = List.replicate h c := by
  intro h
  induction h with
  | zero => intro w _; rfl
  | succ n ih =>
      intro w hw
      have hp : model w = c := hm w hw
      show model w :: rollout model n (w.drop 1 ++ [model w]) = _
      rw [hp, List.replicate_succ]
      congr 1
      apply ih
      intro x hx
      rcases List.mem_append.1 hx with hx1 | hx1
      · exact hw x (List.drop_subset _ _ hx1)
      · simpa using hx1

/-- Lag table of a constant series: every surviving row is the constant
target with an all-constant lag window. -/
theorem build_lag_table_replicate (c : ℚ) (n k : Nat) :
    build_lag_table (List.replicate n c) k =
      List.replicate (n - k) (c, List.replicate k c) := by
  rw [build_lag_table_eq, List.length_replicate, List.eq_replicate_iff]
  constructor
  · rw [List.length_map, List.length_range]
  · intro b hb
    obtain ⟨r, hr, rfl⟩ := List.mem_map.1 hb
    have hrn : r < n - k := List.mem_range.1 hr
    have hget : ∀ i, i < n → (List.replicate n c).getD i 0 = c := by
      intro i hi
      rw [List.getD_eq_getElem?_getD, List.getElem?_replicate, if_pos hi,
        Option.getD_some]
    rw [Prod.mk.injEq]
    refine ⟨hget (k + r) (by omega), ?_⟩
    rw [List.map_congr_left (fun j hj => hget (k + r - (j + 1)) (by omega))]
    simp

/-- Claim C5 (confirmed): on a constant series of value `c` longer than
the 8 fixed lags, with a single-step model mapping every all-`c` window
to `c`, the tabular rollout of `forecast_future` returns exactly
`horizon` values, each equal to `c`. -/
theorem rollout_constant_series (c : ℚ) (n h : Nat)
    (sarima_model : List ℚ → Nat → List ℚ) (predict : List ℚ → ℚ) (mc : String)
    (hn : 8 < n) (hmc : mc = "XGBoost" ∨ mc = "Gradient Boosting")
    (hm : ∀ w, (∀ x ∈ w, x = c) → predict w = c) :
    forecast_future sarima_model (fun _ _ => predict) (fun _ _ => predict)
      (List.replicate n c) mc h = Except.ok (some (List.replicate h c)) := by
  rw [forecast_future_tabular _ _ _ _ _ _ hmc, build_lag_table_replicate,
    List.map_replicate, List.getLast?_replicate, if_neg (by omega : ¬ n - 8 = 0)]
  have hmodel :
      (if mc = "XGBoost" then
        (fun _ _ => predict) (List.replicate (n - 8) (List.replicate 8 c))
          ((List.replicate (n - 8) ((c, List.replicate 8 c) : ℚ × List ℚ)).map Prod.fst)
       else
        (fun _ _ => predict) (List.replicate (n - 8) (List.replicate 8 c))
          ((List.replicate (n - 8) ((c, List.replicate 8 c) : ℚ × List ℚ)).map Prod.fst))
      = predict := by
    split <;> rfl
  rw [hmodel]
  show Except.ok (some (rollout predict h (List.replicate 8 c)))
    = Except.ok (some (List.replicate h c))
  rw [rollout_const predict c hm h (List.replicate 8 c)
    (fun x hx => List.eq_of_mem_replicate hx)]

/-- Witness for C5: a constant series of nine 5s, horizon 3, and the
constant model produce the forecast `[5, 5, 5]`. -/
theorem rollout_constant_series_witness :
    forecast_future (fun _ _ => []) (fun _ _ => fun _ => (5 : ℚ))
      (fun _ _ => fun _ => (5 : ℚ)) (List.replicate 9 (5 : ℚ)) "XGBoost" 3
      = Except.ok (some (List.replicate 3 (5 : ℚ))) := by
  exact rollout_constant_series 5 9 3 (fun _ _ => []) (fun _ => (5 : ℚ)) "XGBoost"
    (by decide) (Or.inl rfl) (fun w _ => rfl)

/-- Claim C7 (amended): for every strategy name outside the recognized
set, `forecast_future` falls off the end of its if/elif chain and
returns the Python `None` (modelled `Except.ok none`), not a typed
`UnknownStrategy` failure. -/
theorem forecast_future_unknown_returns_none (sar : List ℚ → Nat → List ℚ)
    (xf gf : List (List ℚ) → List ℚ → List ℚ → ℚ) (data : List ℚ) (mc : String)
    (h : Nat) (h1 : mc ≠ "SARIMA") (h2 : mc ≠ "XGBoost")
    (h3 : mc ≠ "Gradient Boosting") :
    forecast_future sar xf gf data mc h = Except.ok none := by
  unfold forecast_future
  rw [if_neg h1, if_neg ?_]
  rintro (hx | hx)
  · exact h2 hx
  · exact h3 hx

/-- Claim C7 (refuted as stated): at the unrecognized strategy name
Prophet the extrapolator returns `None` successfully; it does not fail
with `UnknownStrategy`. -/
theorem forecast_future_unknown_cex :
    forecast_future (fun _ _ => []) (fun _ _ => fun _ => 0) (fun _ _ => fun _ => 0)
        [1, 2] "Prophet" 3 = Except.ok none ∧
    (Except.ok none : Except PyError (Option (List ℚ)))
      ≠ Except.error PyError.UnknownStrategy := by
  exact ⟨rfl, fun hx => Except.noConfusion hx⟩

/-- Witness for C7: the amended statement applied at the strategy name
Prophet. -/
theorem forecast_future_unknown_returns_none_witness :
    forecast_future (fun _ _ => []) (fun _ _ => fun _ => 0) (fun _ _ => fun _ => 0)
      [1, 2] "Prophet" 5 = Except.ok none := by
  exact forecast_future_unknown_returns_none (fun _ _ => [])
    (fun _ _ => fun _ => 0) (fun _ _ => fun _ => 0) [1, 2] "Prophet" 5
    (by decide) (by decide) (by decide)

/-- The horizon derived by the caller at line 220:
`future_steps = int(len(data) * 0.2)`. -/
def derived_future_steps (data : List ℚ) : Nat :=
  (py_int ((data.length : ℚ) * (2/10))).toNat

/-- Claim C10 (amended): with horizon 0 the tabular extrapolator returns
an empty prediction sequence when the series is long enough for the lag
table to be nonempty (length above the 8 fixed lags); on a shorter
series it instead fails like `X_train.iloc[-1]` does on an empty frame,
so a series with fewer than 5 points (whose derived horizon is 0) yields
a failure, not an empty forecast. -/
theorem forecast_future_zero_horizon (sar : List ℚ → Nat → List ℚ)
    (xf gf : List (List ℚ) → List ℚ → List ℚ → ℚ) (data : List ℚ) (mc : String)
    (hmc : mc = "XGBoost" ∨ mc = "Gradient Boosting") :
    (8 < data.length →
      forecast_future sar xf gf data mc 0 = Except.ok (some [])) ∧
    (data.length ≤ 8 →
      forecast_future sar xf gf data mc 0 = Except.error PyError.IndexError) := by
  rw [forecast_future_tabular sar xf gf data mc 0 hmc]
  have hlen : ((build_lag_table data 8).map Prod.snd).length = data.length - 8 := by
    rw [List.length_map, build_lag_table_length]
  constructor
  · intro hd
    have hne : ((build_lag_table data 8).map Prod.snd).getLast? ≠ none := by
      rw [Ne, List.getLast?_eq_none_iff, ← List.length_eq_zero, hlen]
      omega
    obtain ⟨w, hw⟩ := Option.ne_none_iff_exists'.1 hne
    rw [hw]
    rfl
  · intro hd
    have hnil : ((build_lag_table data 8).map Prod.snd) = [] := by
      rw [← List.length_eq_zero, hlen]
      omega
    rw [List.getLast?_eq_none_iff.2 hnil]

/-- Claim C10 (refuted as stated): on the four-point series
`[1, 2, 3, 4]` the caller derives horizon `int(4 * 0.2) = 0`, and the
tabular extrapolator raises an IndexError on the empty lag table instead
of returning an empty forecast. -/
theorem forecast_future_short_series_cex :
    derived_future_steps [1, 2, 3, 4] = 0 ∧
    forecast_future (fun _ _ => []) (fun _ _ => fun _ => 0) (fun _ _ => fun _ => 0)
        [1, 2, 3, 4] "XGBoost" 0 = Except.error PyError.IndexError ∧
    (Except.error PyError.IndexError : Except PyError (Option (List ℚ)))
      ≠ Except.ok (some []) := by
  refine ⟨?_, rfl, fun hx => Except.noConfusion hx⟩
  norm_num [derived_future_steps, py_int]

/-- Witness for C10: the amended statement applied at a nine-point
series (nonempty lag table, horizon 0 gives the empty forecast) and at a
four-point series (empty lag table, horizon 0 fails). -/
theorem forecast_future_zero_horizon_witness :
    forecast_future (fun _ _ => []) (fun _ _ => fun _ => 0) (fun _ _ => fun _ => 0)
      [1, 2, 3, 4, 5, 6, 7, 8, 9] "XGBoost" 0 = Except.ok (some []) ∧
    forecast_future (fun _ _ => []) (fun _ _ => fun _ => 0) (fun _ _ => fun _ => 0)
      [1, 2, 3, 4] "Gradient Boosting" 0 = Except.error PyError.IndexError := by
  constructor
  · exact (forecast_future_zero_horizon (fun _ _ => []) (fun _ _ => fun _ => 0)
      (fun _ _ => fun _ => 0) [1, 2, 3, 4, 5, 6, 7, 8, 9] "XGBoost"
      (Or.inl rfl)).1 (by decide)
  · exact (forecast_future_zero_horizon (fun _ _ => []) (fun _ _ => fun _ => 0)
      (fun _ _ => fun _ => 0) [1, 2, 3, 4] "Gradient Boosting"
      (Or.inr rfl)).2 (by decide)

/-! ## Metric Calculator claims -/

/-- Claim C4 (refuted as stated): the claimed formula
`mean(|truth - predicted| / truth) * 100` places the truth value, not
its absolute value, in the denominator.  At the nonzero truth `[-1]`
with prediction `[0]`, the code computes `|(-1 - 0) / (-1)| * 100 = 100`
while the claimed formula gives `(|(-1) - 0| / (-1)) * 100 = -100`. -/
theorem mape_negative_truth_cex :
    (∀ x ∈ [(-1 : ℚ)], x ≠ 0) ∧
    (calculate_metrics [(-1 : ℚ)] [0]).MAPE = 100 ∧
    ((([((-1 : ℚ), (0 : ℚ))].map (fun a => |a.1 - a.2| / a.1)).sum
      / [(-1 : ℚ)].length) * 100) = -100 := by
  refine ⟨by decide, ?_, by norm_num⟩
  show mape [(-1 : ℚ)] [0] = 100
  norm_num [mape]

/-- The guarded absolute-percentage-error list returns `some` of the
pointwise values when every truth value in the pairs is nonzero. -/
theorem absPctErrors_eq_some (l : List (ℚ × ℚ)) (hz : ∀ a ∈ l, a.1 ≠ 0) :
    absPctErrors l = some (l.map (fun a => |(a.1 - a.2) / a.1|)) := by
  induction l with
  | nil => rfl
  | cons a t ih =>
      rw [absPctErrors, if_neg (hz a (List.mem_cons_self a t)),
        ih fun x hx => hz x (List.mem_cons_of_mem _ hx), Option.map_some',
        List.map_cons]

/-- Claim C4 (amended): for equal-length nonempty inputs whose truth
values are all nonzero, the MAPE returned by `calculate_metrics` equals
`mean(|truth - predicted| / |truth|) * 100` (absolute value of the whole
ratio, hence of the denominator as well), and the guarded computation
confirms that no division by zero occurs under this hypothesis. -/
theorem mape_abs_formula (t p : List ℚ) (hl : t.length = p.length)
    (hn : 1 ≤ t.length) (hz : ∀ x ∈ t, x ≠ 0) :
    (calculate_metrics t p).MAPE =
      (((t.zip p).map (fun a => |a.1 - a.2| / |a.1|)).sum / t.length) * 100 ∧
    mape_guard t p = some ((calculate_metrics t p).MAPE) := by
  have hz2 : ∀ a ∈ t.zip p, a.1 ≠ 0 := fun a ha => hz a.1 (List.of_mem_zip ha).1
  have habs : ((t.zip p).map (fun a => |(a.1 - a.2) / a.1|)) =
      ((t.zip p).map (fun a => |a.1 - a.2| / |a.1|)) :=
    List.map_congr_left fun a _ => abs_div _ _
  constructor
  · show mape t p = _
    rw [mape, habs]
  · rw [mape_guard, absPctErrors_eq_some _ hz2, Option.map_some']
    rfl

/-- Witness for C4: the amended statement applied at the truth `[2, -3]`
and prediction `[1, 1]`. -/
theorem mape_abs_formula_witness :
    (calculate_metrics [(2 : ℚ), -3] [1, 1]).MAPE =
      ((([(2 : ℚ), -3].zip [(1 : ℚ), 1]).map
        (fun a => |a.1 - a.2| / |a.1|)).sum / [(2 : ℚ), -3].length) * 100 ∧
    mape_guard [(2 : ℚ), -3] [1, 1]
      = some ((calculate_metrics [(2 : ℚ), -3] [1, 1]).MAPE) := by
  exact mape_abs_formula [(2 : ℚ), -3] [1, 1] (by decide) (by decide) (by decide)

/-- Claim C8 (confirmed): for equal-length nonempty truth and prediction
sequences, the metrics record has RMSE at least 0, MAE at least 0, and
R squared at most 1. -/
theorem calculate_metrics_bounds (t p : List ℚ) (hl : t.length = p.length)
    (hn : 1 ≤ t.length) :
    0 ≤ (calculate_metrics t p).RMSE ∧ 0 ≤ (calculate_metrics t p).MAE ∧
    (calculate_metrics t p).R2 ≤ 1 := by
  refine ⟨Real.sqrt_nonneg _, ?_, ?_⟩
  · show 0 ≤ mean_absolute_error t p
    rw [mean_absolute_error]
    refine div_nonneg (List.sum_nonneg ?_) (Nat.cast_nonneg _)
    intro x hx
    obtain ⟨a, _, rfl⟩ := List.mem_map.1 hx
    exact abs_nonneg _
  · show r2_score t p ≤ 1
    have hres : 0 ≤ ss_res t p := by
      refine List.sum_nonneg ?_
      intro x hx
      obtain ⟨a, _, rfl⟩ := List.mem_map.1 hx
      positivity
    have htot : 0 ≤ ss_tot t := by
      refine List.sum_nonneg ?_
      intro x hx
      obtain ⟨a, _, rfl⟩ := List.mem_map.1 hx
      positivity
    rw [r2_score]
    split_ifs
    · exact le_refl 1
    · norm_num
    · have hq : 0 ≤ ss_res t p / ss_tot t := div_nonneg hres htot
      linarith

/-- Witness for C8: the bounds applied at the truth `[1, 2]` and
prediction `[0, 5]`. -/
theorem calculate_metrics_bounds_witness :
    0 ≤ (calculate_metrics [(1 : ℚ), 2] [0, 5]).RMSE ∧
    0 ≤ (calculate_metrics [(1 : ℚ), 2] [0, 5]).MAE ∧
    (calculate_metrics [(1 : ℚ), 2] [0, 5]).R2 ≤ 1 := by
  exact calculate_metrics_bounds [(1 : ℚ), 2] [0, 5] (by decide) (by decide)

/-! ## Claim C9 -/

/-- Claim C9 (confirmed): the XGBoost and Gradient Boosting pipelines
build identical design data (lag table, chronological split, feature
matrices and target vectors), and composed with one and the same
external regressor they return identical forecast results; the two
source functions differ only in the library regressor they construct. -/
theorem tabular_pipelines_identical
    (reg : List (List ℚ) → List ℚ → List (List ℚ) → List ℚ)
    (data : List ℚ) (lag_features : Nat) (test_size : ℚ) :
    xgboost_design data lag_features test_size
      = gradient_boosting_design data lag_features test_size ∧
    xgboost_forecast reg data lag_features test_size
      = gradient_boosting_forecast reg data lag_features test_size :=
  ⟨rfl, rfl⟩

end ElectricityConsumption
